import Mathlib

/-!
Verification of the murmprince HDMI palette double-buffer driver and the
async SD stream scheduler, shallowly embedded from the C sources.

The HDMI model follows src/unnamed/part_000 (graphics_set_palette_hdmi,
graphics_set_fade_level, vsync_swap_buffers, dma_handler_HDMI remap guard).
The stream model follows src/src/SDL_port.c: the cooperative pump variant
(lines 2082-2555) and the Core 1 worker variant (lines 2556-3367).
-/

namespace Murmprince

/-- Pointwise update of a table modelled as a function from indices. -/
def upd (f : Nat → Nat) (k v : Nat) : Nat → Nat :=
  fun j => if j = k then v else f j

namespace HDMI

def BASE_HDMI_CTRL_INX : Nat := 240
def HDMI_CTRL_COUNT : Nat := 4

/-- An index is one of the 4 reserved HDMI control/sync codes (240..243). -/
def isCtrlIndex (i : Nat) : Prop :=
  BASE_HDMI_CTRL_INX ≤ i ∧ i < BASE_HDMI_CTRL_INX + HDMI_CTRL_COUNT

instance (i : Nat) : Decidable (isCtrlIndex i) := by
  unfold isCtrlIndex; infer_instance

/-- Modelled from the spec: board_config.h is not under src/, so the wiring
constant HDMI_PIN_invert_diffpairs is fixed to an arbitrary value; no claim
depends on it. -/
def HDMI_PIN_invert_diffpairs : Bool := false

/-- Modelled from the spec: board_config.h is not under src/, so the wiring
constant HDMI_PIN_RGB_notBGR is fixed to an arbitrary value; no claim
depends on it. -/
def HDMI_PIN_RGB_notBGR : Bool := true

/-- One differential pair from a single bit, as in get_ser_diff_data:
b becomes b OR ((b XOR 1) shifted left 1), optionally inverted with 0b11. -/
def diffPair (b : Nat) : Nat :=
  let v := b ||| ((b ^^^ 1) <<< 1)
  if HDMI_PIN_invert_diffpairs then v ^^^ 3 else v

/-- get_ser_diff_data from src/unnamed/part_000 lines 221-256 (the non
PICO_PC branch): packs ten 6-bit groups of differential pairs of the three
10-bit channel words, with a 2-bit gap after the fifth group. -/
def get_ser_diff_data (dataR dataG dataB : Nat) : Nat :=
  (List.range 10).foldl
    (fun out64 i =>
      let out64 := out64 <<< 6
      let out64 := if i = 5 then out64 <<< 2 else out64
      let bR := diffPair ((dataR >>> (9 - i)) &&& 1)
      let bG := diffPair ((dataG >>> (9 - i)) &&& 1)
      let bB := diffPair ((dataB >>> (9 - i)) &&& 1)
      let d6 :=
        if HDMI_PIN_RGB_notBGR then (bR <<< 4) ||| (bG <<< 2) ||| bB
        else (bB <<< 4) ||| (bG <<< 2) ||| bR
      out64 ||| d6)
    0

/-- tmds_encoder from src/unnamed/part_000 lines 259-275. -/
def tmds_encoder (d8 : Nat) : Nat :=
  let s1 := (List.range 8).foldl
    (fun acc i => if d8 &&& (1 <<< i) ≠ 0 then acc + 1 else acc) 0
  let is_xnor : Bool := decide (4 < s1) || (decide (s1 = 4) && decide (d8 &&& 1 = 0))
  let xn : Nat := if is_xnor then 1 else 0
  let d0 := d8 &&& 1
  let p := (List.range' 1 7).foldl
    (fun (p : Nat × Nat) i =>
      let d := p.1 ||| (((p.2 <<< 1) ^^^ (d8 &&& (1 <<< i))) ^^^ (xn <<< i))
      (d, d &&& (1 <<< i)))
    (d0, d0)
  if is_xnor then p.1 ||| (1 <<< 9) else p.1 ||| (1 <<< 8)

/-- fade_gamma_table from src/unnamed/part_000 lines 725-734. -/
def fade_gamma_table : List Nat :=
  [255, 253, 251, 249, 247, 245, 243, 241,
   239, 236, 234, 231, 229, 226, 223, 220,
   217, 214, 211, 208, 204, 201, 197, 193,
   189, 185, 181, 176, 172, 167, 162, 156,
   151, 145, 139, 133, 126, 119, 112, 104,
   96,  88,  79,  69,  59,  48,  36,  23,
   0,   0,   0,   0,   0,   0,   0,   0,
   0,   0,   0,   0,   0,   0,   0,   0]

/-- apply_fade_to_color from src/unnamed/part_000 lines 738-753. -/
def apply_fade_to_color (color888 fade_level : Nat) : Nat :=
  if fade_level = 0 then color888
  else if 48 ≤ fade_level then 0
  else
    let r := (color888 >>> 16) &&& 0xff
    let g := (color888 >>> 8) &&& 0xff
    let b := color888 &&& 0xff
    let scale := fade_gamma_table.getD fade_level 0
    let r := (r * scale) >>> 8
    let g := (g * scale) >>> 8
    let b := (b * scale) >>> 8
    (r <<< 16) ||| (g <<< 8) ||| b

/-- The encoded 64-bit CLUT word for a 24-bit color: the common subexpression
of graphics_set_palette_hdmi line 779 and graphics_set_fade_level line 815. -/
def encodeEntry (color : Nat) : Nat :=
  get_ser_diff_data (tmds_encoder ((color >>> 16) &&& 0xff))
    (tmds_encoder ((color >>> 8) &&& 0xff))
    (tmds_encoder (color &&& 0xff))

/-- The differential-pair complement mask 0x0003ffffffffffff applied to the
second word of each CLUT entry pair. -/
def diffMask : Nat := 0x0003ffffffffffff

/-- The driver state: the logical palette arrays, fade parameters, and the
two CLUT copies. conv_back and conv_front are viewed as arrays of 64-bit
words: entry pair for index i sits at words i*2 and i*2+1, so the lookup
table region is words 0..511 (the first 1024 32-bit words of the C arrays;
words 512.. model the line-buffer tail which memcpy does not copy). -/
structure GState where
  palette : Nat → Nat
  palette_original : Nat → Nat
  fade_level : Nat
  fade_rows : Nat
  conv_back : Nat → Nat
  conv_front : Nat → Nat
  dirty : Bool
  swap_count : Nat

/-- graphics_set_palette_hdmi from src/unnamed/part_000 lines 755-784. -/
def graphics_set_palette_hdmi (s : GState) (i color888 : Nat) : GState :=
  let orig := color888 &&& 0xffffff
  let faded :=
    if 0 < s.fade_level ∧
        (64 ≤ s.fade_level ∨ s.fade_rows = 0 ∨ s.fade_rows &&& (1 <<< (i / 16)) ≠ 0)
    then apply_fade_to_color orig s.fade_level else orig
  if isCtrlIndex i then
    { s with palette_original := upd s.palette_original i orig,
             palette := upd s.palette i faded }
  else
    { s with palette_original := upd s.palette_original i orig,
             palette := upd s.palette i faded,
             conv_back := upd (upd s.conv_back (i * 2) (encodeEntry faded))
                              (i * 2 + 1) (encodeEntry faded ^^^ diffMask),
             dirty := true }

/-- vsync_swap_buffers from src/unnamed/part_000 lines 164-177: when the
back buffer is dirty, copy the lookup-table region (words 0..511) into the
front buffer and clear the dirty flag. -/
def vsync_swap_buffers (s : GState) : GState :=
  if s.dirty then
    { s with conv_front := fun j => if j < 512 then s.conv_back j else s.conv_front j,
             dirty := false,
             swap_count := s.swap_count + 1 }
  else s

/-- The loop body of graphics_set_fade_level (lines 792-817) for one index. -/
def set_fade_entry (fade_level which_rows : Nat) (s : GState) (i : Nat) : GState :=
  if isCtrlIndex i then s
  else
    let color0 := s.palette_original i
    let color :=
      if 0 < fade_level ∧
          (48 ≤ fade_level ∨ which_rows = 0 ∨ which_rows &&& (1 <<< (i / 16)) ≠ 0)
      then apply_fade_to_color color0 fade_level else color0
    { s with palette := upd s.palette i color,
             conv_back := upd (upd s.conv_back (i * 2) (encodeEntry color))
                              (i * 2 + 1) (encodeEntry color ^^^ diffMask) }

def syncB0 : Nat := 0b1101010100
def syncB1 : Nat := 0b0010101011
def syncB2 : Nat := 0b0101010100
def syncB3 : Nat := 0b1010101011

/-- The eight sync-code CLUT words written by graphics_restore_sync_colors
(and hdmi_init) into one buffer. -/
def writeSync (f : Nat → Nat) : Nat → Nat :=
  upd (upd (upd (upd (upd (upd (upd (upd f
    (2 * BASE_HDMI_CTRL_INX) (get_ser_diff_data syncB0 syncB0 syncB3))
    (2 * BASE_HDMI_CTRL_INX + 1) (get_ser_diff_data syncB0 syncB0 syncB3))
    (2 * (BASE_HDMI_CTRL_INX + 1)) (get_ser_diff_data syncB0 syncB0 syncB2))
    (2 * (BASE_HDMI_CTRL_INX + 1) + 1) (get_ser_diff_data syncB0 syncB0 syncB2))
    (2 * (BASE_HDMI_CTRL_INX + 2)) (get_ser_diff_data syncB0 syncB0 syncB1))
    (2 * (BASE_HDMI_CTRL_INX + 2) + 1) (get_ser_diff_data syncB0 syncB0 syncB1))
    (2 * (BASE_HDMI_CTRL_INX + 3)) (get_ser_diff_data syncB0 syncB0 syncB0))
    (2 * (BASE_HDMI_CTRL_INX + 3) + 1) (get_ser_diff_data syncB0 syncB0 syncB0)

/-- graphics_restore_sync_colors from src/unnamed/part_000 lines 851-881:
rewrites the reserved range in both CLUT copies. -/
def graphics_restore_sync_colors (s : GState) : GState :=
  { s with conv_back := writeSync s.conv_back,
           conv_front := writeSync s.conv_front }

/-- graphics_set_fade_level from src/unnamed/part_000 lines 787-822. -/
def graphics_set_fade_level (s : GState) (fade_level which_rows : Nat) : GState :=
  let s := { s with fade_level := fade_level, fade_rows := which_rows }
  let s := (List.range 256).foldl (set_fade_entry fade_level which_rows) s
  let s := graphics_restore_sync_colors s
  { s with dirty := true }

/-- The ISR pixel-index remap guard from dma_handler_HDMI line 366:
indices colliding with the reserved control range are replaced by 255. -/
def remap_guard (c : Nat) : Nat :=
  if BASE_HDMI_CTRL_INX ≤ c ∧ c < BASE_HDMI_CTRL_INX + HDMI_CTRL_COUNT then 255 else c

/-- A finite sequence of graphics_set_palette_hdmi calls. -/
def applyWrites (s : GState) (ws : List (Nat × Nat)) : GState :=
  ws.foldl (fun s w => graphics_set_palette_hdmi s w.1 w.2) s

/-- A finite sequence of graphics_set_fade_level calls. -/
def applyFades (s : GState) (fs : List (Nat × Nat)) : GState :=
  fs.foldl (fun s f => graphics_set_fade_level s f.1 f.2) s

/-- A concrete all-zero driver state used by witnesses. -/
def initState : GState :=
  { palette := fun _ => 0, palette_original := fun _ => 0,
    fade_level := 0, fade_rows := 0,
    conv_back := fun _ => 0, conv_front := fun _ => 0,
    dirty := false, swap_count := 0 }

end HDMI

/-- SD_ASYNC_STREAM_BUFFER_BYTES from the sd_async.h header bundled in
src/src/main.c lines 850-851: SD_ASYNC_STREAM_BUFFER_SAMPLES = 2048 stereo
16-bit samples of 4 bytes each, so 8192 bytes per buffer half. -/
def SD_ASYNC_STREAM_BUFFER_BYTES : Nat := 2048 * 4

namespace Pump

/-- stream_state_t of the cooperative pump variant,
src/src/SDL_port.c lines 2114-2121. -/
inductive St where
  | closed | fillingA | fillingB | ready | eof | error
deriving DecidableEq, Repr

/-- struct sd_async_stream of the pump variant, lines 2123-2145. The byte
contents of the buffers and the FatFS FIL pointer are not modelled; the
claims concern byte counts and state transitions only. fileOpen models
file being non-NULL. -/
structure Stream where
  state : St
  fileOpen : Bool
  file_size : Nat
  file_pos : Nat
  a_valid : Int
  b_valid : Int
  a_consumed : Int
  b_consumed : Int
  active_buffer : Int
  fill_offset : Nat
deriving DecidableEq, Repr

/-- sd_async_stream_available, lines 2466-2474: unconsumed bytes of the
active buffer only. -/
def sd_async_stream_available (s : Stream) : Int :=
  if s.active_buffer = 0 then s.a_valid - s.a_consumed
  else s.b_valid - s.b_consumed

/-- Unconsumed bytes in both internal buffers together. -/
def totalBuffered (s : Stream) : Int :=
  (s.a_valid - s.a_consumed) + (s.b_valid - s.b_consumed)

/-- The consumed-counter bounds that hold for every stream the scheduler
produces: the reader never consumes more than was filled. -/
def wf (s : Stream) : Prop :=
  s.a_consumed ≤ s.a_valid ∧ s.b_consumed ≤ s.b_valid

instance (s : Stream) : Decidable (wf s) := by unfold wf; infer_instance

/-- The read's buffer swap, lines 2428-2433: zero the drained active buffer
and make the other buffer active. -/
def swapBuffers (s : Stream) : Stream :=
  if s.active_buffer = 0 then
    { s with a_valid := 0, a_consumed := 0, active_buffer := 1 - s.active_buffer }
  else
    { s with b_valid := 0, b_consumed := 0, active_buffer := 1 - s.active_buffer }

/-- Advance the active buffer's consumed counter (line 2461). -/
def addConsumed (s : Stream) (n : Int) : Stream :=
  if s.active_buffer = 0 then { s with a_consumed := s.a_consumed + n }
  else { s with b_consumed := s.b_consumed + n }

/-- The shared tail of sd_async_stream_read, lines 2454-2463: re-check
availability, then copy min(max_bytes, available) bytes. -/
def finishRead (s : Stream) (avail : Int) (max_bytes : Nat) : Int × Stream :=
  if avail ≤ 0 then (if s.state = St.eof then (-1, s) else (0, s))
  else
    let to_copy : Int := if (max_bytes : Int) < avail then (max_bytes : Int) else avail
    (to_copy, addConsumed s to_copy)

/-- sd_async_stream_read of the pump variant, lines 2397-2464. -/
def sd_async_stream_read (s : Stream) (max_bytes : Nat) : Int × Stream :=
  if s.state = St.error then (-1, s)
  else if s.state = St.closed then (-1, s)
  else
    let available := sd_async_stream_available s
    if available ≤ 0 then
      let other_valid := if 1 - s.active_buffer = 0 then s.a_valid else s.b_valid
      if 0 < other_valid then
        let s2 := swapBuffers s
        finishRead s2 (sd_async_stream_available s2) max_bytes
      else if s.state = St.eof then (-1, s)
      else (0, s)
    else finishRead s available max_bytes

/-- sd_async_stream_seek of the pump variant, lines 2481-2509. lseekOk is
the outcome of f_lseek on the device. Note: the state is not checked, so
a stream in ERROR is seeked like any other. -/
def sd_async_stream_seek (s : Stream) (position : Nat) (lseekOk : Bool) : Int × Stream :=
  if ¬s.fileOpen then (-1, s)
  else if ¬lseekOk then (-1, { s with state := St.error })
  else
    (0, { s with file_pos := position,
                 a_valid := 0, b_valid := 0,
                 a_consumed := 0, b_consumed := 0,
                 active_buffer := 0, fill_offset := 0,
                 state := if position < s.file_size then St.fillingA else St.eof })

end Pump

namespace Worker

/-- stream_state_t of the Core 1 worker variant,
src/src/SDL_port.c lines 2601-2610. -/
inductive St where
  | closed | opening | fillingA | fillingB | ready | seeking | eof | error
deriving DecidableEq, Repr

/-- struct sd_async_stream of the worker variant, lines 2612-2635. As in
the pump model, buffer contents and the FIL pointer are abstracted;
fileOpen models file being non-NULL. -/
structure Stream where
  state : St
  fileOpen : Bool
  file_size : Nat
  file_pos : Nat
  a_valid : Int
  b_valid : Int
  a_consumed : Int
  b_consumed : Int
  active_buffer : Int
  seek_target : Nat
deriving DecidableEq, Repr

/-- The storage device outcomes seen by Core 1: whether f_lseek succeeds,
and how many bytes chunked_sd_read returns for a read of n bytes at a file
position (0 with n positive signals a device error, as in the C code). -/
structure Dev where
  lseekOk : Bool
  readAt : Nat → Nat → Nat

/-- sd_async_stream_available of the worker variant, lines 3206-3214. -/
def sd_async_stream_available (s : Stream) : Int :=
  if s.active_buffer = 0 then s.a_valid - s.a_consumed
  else s.b_valid - s.b_consumed

/-- Unconsumed bytes in both internal buffers together. -/
def totalBuffered (s : Stream) : Int :=
  (s.a_valid - s.a_consumed) + (s.b_valid - s.b_consumed)

/-- Consumed-counter bounds holding for every scheduler-produced stream. -/
def wf (s : Stream) : Prop :=
  s.a_consumed ≤ s.a_valid ∧ s.b_consumed ≤ s.b_valid

instance (s : Stream) : Decidable (wf s) := by unfold wf; infer_instance

/-- The read's buffer swap, lines 3167-3173. -/
def swapBuffers (s : Stream) : Stream :=
  if s.active_buffer = 0 then
    { s with a_valid := 0, a_consumed := 0, active_buffer := 1 - s.active_buffer }
  else
    { s with b_valid := 0, b_consumed := 0, active_buffer := 1 - s.active_buffer }

/-- Advance the active buffer's consumed counter (line 3201). -/
def addConsumed (s : Stream) (n : Int) : Stream :=
  if s.active_buffer = 0 then { s with a_consumed := s.a_consumed + n }
  else { s with b_consumed := s.b_consumed + n }

/-- The shared tail of sd_async_stream_read, lines 3194-3203. -/
def finishRead (s : Stream) (avail : Int) (max_bytes : Nat) : Int × Stream :=
  if avail ≤ 0 then (if s.state = St.eof then (-1, s) else (0, s))
  else
    let to_copy : Int := if (max_bytes : Int) < avail then (max_bytes : Int) else avail
    (to_copy, addConsumed s to_copy)

/-- sd_async_stream_read of the worker variant, lines 3139-3204. destOk
models dest being non-NULL; a null dest or a zero byte count returns 0
before any state is examined. -/
def sd_async_stream_read (destOk : Bool) (s : Stream) (max_bytes : Nat) : Int × Stream :=
  if ¬destOk ∨ max_bytes = 0 then (0, s)
  else if s.state = St.error then (-1, s)
  else
    let available := sd_async_stream_available s
    if available ≤ 0 then
      let other_valid := if 1 - s.active_buffer = 0 then s.a_valid else s.b_valid
      if 0 < other_valid then
        let s2 := swapBuffers s
        finishRead s2 (sd_async_stream_available s2) max_bytes
      else if s.state = St.eof then (-1, s)
      else (0, s)
    else finishRead s available max_bytes

/-- The FILLING_B case of process_stream_work, lines 2950-2975. -/
def processFillB (dev : Dev) (s : Stream) : Stream :=
  if ¬s.fileOpen ∨ s.file_size ≤ s.file_pos then
    { s with b_valid := 0,
             state := if 0 < s.a_valid then St.ready else St.eof }
  else
    let to_read :=
      if s.file_size < s.file_pos + SD_ASYNC_STREAM_BUFFER_BYTES
      then s.file_size - s.file_pos else SD_ASYNC_STREAM_BUFFER_BYTES
    let br := dev.readAt s.file_pos to_read
    if br = 0 ∧ 0 < to_read then { s with state := St.error }
    else
      { s with b_valid := (br : Int), b_consumed := 0,
               file_pos := s.file_pos + br, state := St.ready }

/-- The FILLING_A case of process_stream_work, lines 2916-2948 (its tail
recursion into FILLING_B is the call to processFillB). -/
def processFillA (dev : Dev) (s : Stream) : Stream :=
  if ¬s.fileOpen ∨ s.file_size ≤ s.file_pos then
    { s with a_valid := 0,
             state := if 0 < s.b_valid then St.ready else St.eof }
  else
    let to_read :=
      if s.file_size < s.file_pos + SD_ASYNC_STREAM_BUFFER_BYTES
      then s.file_size - s.file_pos else SD_ASYNC_STREAM_BUFFER_BYTES
    let br := dev.readAt s.file_pos to_read
    if br = 0 ∧ 0 < to_read then { s with state := St.error }
    else
      let s := { s with a_valid := (br : Int), a_consumed := 0,
                        file_pos := s.file_pos + br }
      if s.b_valid = 0 ∧ s.file_pos < s.file_size then
        processFillB dev { s with state := St.fillingB }
      else { s with state := St.ready }

/-- The SEEKING case of process_stream_work, lines 2977-3005 (its tail
recursion into FILLING_A is the call to processFillA). -/
def processSeeking (dev : Dev) (s : Stream) : Stream :=
  if ¬s.fileOpen then { s with state := St.error }
  else if ¬dev.lseekOk then { s with state := St.error }
  else
    let s := { s with file_pos := s.seek_target,
                      a_valid := 0, b_valid := 0,
                      a_consumed := 0, b_consumed := 0,
                      active_buffer := 0 }
    processFillA dev { s with state := St.fillingA }

/-- sd_async_stream_seek of the worker variant, lines 3221-3233: an ERROR
stream is rejected up front; otherwise the caller blocks while Core 1 runs
the SEEKING case to a terminal state, and -1 is returned exactly when that
state is ERROR. -/
def sd_async_stream_seek (dev : Dev) (s : Stream) (position : Nat) : Int × Stream :=
  if s.state = St.error then (-1, s)
  else
    let s1 := processSeeking dev { s with seek_target := position, state := St.seeking }
    (if s1.state = St.error then -1 else 0, s1)

end Worker

namespace Oneshot

/-- req_state_t, src/src/SDL_port.c lines 2641-2647. -/
inductive ReqState where
  | free | pending | inProgress | complete | error
deriving DecidableEq, Repr

/-- oneshot_request_t, lines 2649-2656. The destination pointer is not
modelled; the claims concern completion state and result only. -/
structure OneshotReq where
  state : ReqState
  path : String
  max_bytes : Nat
  result : Int
  id : Nat
deriving DecidableEq, Repr

/-- The filesystem as seen through pop_fs_open / f_size / f_read: openSize
gives the size of an openable file (none when the path cannot be opened);
readResult gives f_read's byte count for a whole-file read of n bytes
(none when f_read fails). -/
structure FS where
  openSize : String → Option Nat
  readResult : String → Nat → Option Nat

/-- process_oneshot_work, lines 3016-3042. -/
def process_oneshot_work (fs : FS) (r : OneshotReq) : OneshotReq :=
  match fs.openSize r.path with
  | none => { r with result := -1, state := ReqState.error }
  | some file_size =>
      let to_read := if r.max_bytes < file_size then r.max_bytes else file_size
      match fs.readResult r.path to_read with
      | none => { r with result := -1, state := ReqState.error }
      | some br => { r with result := (br : Int), state := ReqState.complete }

/-- One pass of the Core 1 worker loop over the request slots, lines
2869-2875: each PENDING request is moved to IN_PROGRESS and processed. -/
def worker_pass_oneshots (fs : FS) (rs : List OneshotReq) : List OneshotReq :=
  rs.map fun r =>
    if r.state = ReqState.pending
    then process_oneshot_work fs { r with state := ReqState.inProgress }
    else r

/-- SD_ASYNC_INVALID_REQ from the sd_async.h header bundled in
src/src/main.c line 921: the invalid request id sentinel is 0 (request ids
start at 1 and skip the sentinel when wrapping, SDL_port.c lines
3323-3324). -/
def SD_ASYNC_INVALID_REQ : Nat := 0

/-- sd_async_get_result, lines 3345-3354: scan the slots for the id. -/
def sd_async_get_result (rs : List OneshotReq) (req : Nat) : Int :=
  if req = SD_ASYNC_INVALID_REQ then -1
  else
    match rs.find? (fun r => r.id = req) with
    | some r => r.result
    | none => -1

end Oneshot

/-! Concrete states used by counterexamples and witnesses. -/

/-- A pump stream whose active buffer A is drained while buffer B holds 100
unconsumed bytes: the state right after the reader exhausted the first
2048-byte half of a 10000-byte file and the pump refilled B. -/
def cexStreamA : Pump.Stream :=
  { state := Pump.St.ready, fileOpen := true, file_size := 10000, file_pos := 4196,
    a_valid := 0, a_consumed := 0, b_valid := 100, b_consumed := 0,
    active_buffer := 0, fill_offset := 0 }

/-- Same drained-active-buffer shape, used for the available-decrease claim. -/
def cexStreamB : Pump.Stream :=
  { state := Pump.St.ready, fileOpen := true, file_size := 10000, file_pos := 4196,
    a_valid := 0, a_consumed := 0, b_valid := 100, b_consumed := 0,
    active_buffer := 0, fill_offset := 0 }

/-- A worker stream at end of file with both buffers drained. -/
def cexStreamEof : Worker.Stream :=
  { state := Worker.St.eof, fileOpen := true, file_size := 100, file_pos := 100,
    a_valid := 0, b_valid := 0, a_consumed := 0, b_consumed := 0,
    active_buffer := 0, seek_target := 0 }

/-- A pump stream in the ERROR state whose file handle is still open (the
state produced by an f_read device failure, line 2255). -/
def cexStreamErr : Pump.Stream :=
  { state := Pump.St.error, fileOpen := true, file_size := 100, file_pos := 50,
    a_valid := 0, b_valid := 0, a_consumed := 0, b_consumed := 0,
    active_buffer := 0, fill_offset := 0 }

/-- A pump stream at end of file with both buffers drained. -/
def cexStreamEofP : Pump.Stream :=
  { state := Pump.St.eof, fileOpen := true, file_size := 100, file_pos := 100,
    a_valid := 0, b_valid := 0, a_consumed := 0, b_consumed := 0,
    active_buffer := 0, fill_offset := 0 }

/-- A worker stream in the ERROR state. -/
def cexStreamErrW : Worker.Stream :=
  { state := Worker.St.error, fileOpen := true, file_size := 100, file_pos := 50,
    a_valid := 0, b_valid := 0, a_consumed := 0, b_consumed := 0,
    active_buffer := 0, seek_target := 0 }

/-- A healthy mid-stream pump state: 40 unconsumed bytes in active buffer A. -/
def witStreamP : Pump.Stream :=
  { state := Pump.St.ready, fileOpen := true, file_size := 10000, file_pos := 4096,
    a_valid := 50, a_consumed := 10, b_valid := 0, b_consumed := 0,
    active_buffer := 0, fill_offset := 0 }

/-- A healthy mid-stream worker state: 40 unconsumed bytes in buffer A. -/
def witStreamW : Worker.Stream :=
  { state := Worker.St.ready, fileOpen := true, file_size := 10000, file_pos := 4096,
    a_valid := 50, a_consumed := 10, b_valid := 0, b_consumed := 0,
    active_buffer := 0, seek_target := 0 }

/-- A storage device that always succeeds and returns full reads. -/
def cexDev : Worker.Dev := { lseekOk := true, readAt := fun _ n => n }

/-- A filesystem on which no path can be opened. -/
def cexFS : Oneshot.FS := { openSize := fun _ => none, readResult := fun _ _ => none }

/-- Pending one-shot request for 100 bytes of a nonexistent path. -/
def reqA : Oneshot.OneshotReq :=
  { state := Oneshot.ReqState.pending, path := "LEVELS.DAT", max_bytes := 100,
    result := 0, id := 1 }

/-- Pending one-shot request for 0 bytes of a nonexistent path. -/
def reqB : Oneshot.OneshotReq :=
  { state := Oneshot.ReqState.pending, path := "LEVELS.DAT", max_bytes := 0,
    result := 0, id := 2 }

/-- Pending one-shot request for 50 bytes of a nonexistent path. -/
def reqC : Oneshot.OneshotReq :=
  { state := Oneshot.ReqState.pending, path := "LEVELS.DAT", max_bytes := 50,
    result := 0, id := 3 }

/-! Helper lemmas about the HDMI palette state. -/

namespace HDMI

lemma gsp_conv_front (s : GState) (i c : Nat) :
    (graphics_set_palette_hdmi s i c).conv_front = s.conv_front := by
  unfold graphics_set_palette_hdmi
  split_ifs <;> rfl

lemma applyWrites_conv_front (ws : List (Nat × Nat)) (s : GState) :
    (applyWrites s ws).conv_front = s.conv_front := by
  induction ws generalizing s with
  | nil => rfl
  | cons w t ih =>
      show (applyWrites (graphics_set_palette_hdmi s w.1 w.2) t).conv_front = _
      rw [ih, gsp_conv_front]

lemma sfe_palette_original (fl wr : Nat) (s : GState) (i : Nat) :
    (set_fade_entry fl wr s i).palette_original = s.palette_original := by
  unfold set_fade_entry
  split_ifs <;> rfl

lemma sfe_palette_ne (fl wr : Nat) (s : GState) (j k : Nat) (h : j ≠ k) :
    (set_fade_entry fl wr s j).palette k = s.palette k := by
  unfold set_fade_entry
  split_ifs <;>
    first
      | rfl
      | (dsimp only; unfold upd; rw [if_neg (fun hh => h hh.symm)])

lemma sfe_conv_back_ne (fl wr : Nat) (s : GState) (j k : Nat)
    (h1 : k ≠ j * 2) (h2 : k ≠ j * 2 + 1) :
    (set_fade_entry fl wr s j).conv_back k = s.conv_back k := by
  unfold set_fade_entry
  split_ifs <;>
    first
      | rfl
      | (dsimp only; unfold upd; rw [if_neg h2, if_neg h1])

lemma sfe_conv_back_pair (fl wr : Nat) (s : GState) (i : Nat) (h : ¬isCtrlIndex i) :
    (set_fade_entry fl wr s i).conv_back (i * 2 + 1)
      = (set_fade_entry fl wr s i).conv_back (i * 2) ^^^ diffMask := by
  unfold set_fade_entry
  rw [if_neg h]
  dsimp only
  unfold upd
  split_ifs <;> first | rfl | omega

lemma sfe_palette_self0 (wr : Nat) (s : GState) (i : Nat) (h : ¬isCtrlIndex i) :
    (set_fade_entry 0 wr s i).palette i = s.palette_original i := by
  unfold set_fade_entry
  rw [if_neg h]
  dsimp only
  have hcond : ¬(0 < 0 ∧ (48 ≤ 0 ∨ wr = 0 ∨ wr &&& 1 <<< (i / 16) ≠ 0)) :=
    fun hh => absurd hh.1 (lt_irrefl 0)
  rw [if_neg hcond]
  unfold upd
  rw [if_pos rfl]

lemma fold_sfe_palette_original (fl wr : Nat) (l : List Nat) (s : GState) :
    (l.foldl (set_fade_entry fl wr) s).palette_original = s.palette_original := by
  induction l generalizing s with
  | nil => rfl
  | cons a t ih => rw [List.foldl_cons, ih, sfe_palette_original]

lemma fold_sfe_palette_notmem (fl wr : Nat) (l : List Nat) (s : GState) (k : Nat)
    (h : k ∉ l) :
    (l.foldl (set_fade_entry fl wr) s).palette k = s.palette k := by
  induction l generalizing s with
  | nil => rfl
  | cons a t ih =>
      rw [List.foldl_cons, ih _ (fun hm => h (List.mem_cons_of_mem a hm)),
        sfe_palette_ne _ _ _ _ _ (fun hh => h (by rw [hh]; exact List.mem_cons_self k t))]

lemma fold_sfe_palette0 (wr : Nat) (l : List Nat) (s : GState) (i : Nat)
    (hmem : i ∈ l) (hnd : l.Nodup) (hc : ¬isCtrlIndex i) :
    (l.foldl (set_fade_entry 0 wr) s).palette i = s.palette_original i := by
  induction l generalizing s with
  | nil => cases hmem
  | cons a t ih =>
      rw [List.foldl_cons]
      rcases List.mem_cons.mp hmem with heq | hmem2
      · subst heq
        rw [fold_sfe_palette_notmem _ _ _ _ _ (List.nodup_cons.mp hnd).1,
          sfe_palette_self0 _ _ _ hc]
      · rw [ih _ hmem2 (List.nodup_cons.mp hnd).2, sfe_palette_original]

lemma fold_sfe_back_notmem (fl wr : Nat) (l : List Nat) (s : GState) (i : Nat)
    (h : i ∉ l) :
    (l.foldl (set_fade_entry fl wr) s).conv_back (i * 2) = s.conv_back (i * 2)
    ∧ (l.foldl (set_fade_entry fl wr) s).conv_back (i * 2 + 1) = s.conv_back (i * 2 + 1) := by
  induction l generalizing s with
  | nil => exact ⟨rfl, rfl⟩
  | cons a t ih =>
      have ha : a ≠ i := fun hh => h (by rw [hh]; exact List.mem_cons_self i t)
      have ht : i ∉ t := fun hm => h (List.mem_cons_of_mem a hm)
      rw [List.foldl_cons]
      refine ⟨?_, ?_⟩
      · rw [(ih _ ht).1, sfe_conv_back_ne _ _ _ _ _ (by omega) (by omega)]
      · rw [(ih _ ht).2, sfe_conv_back_ne _ _ _ _ _ (by omega) (by omega)]

lemma fold_sfe_back_pair (fl wr : Nat) (l : List Nat) (s : GState) (i : Nat)
    (hmem : i ∈ l) (hnd : l.Nodup) (hc : ¬isCtrlIndex i) :
    (l.foldl (set_fade_entry fl wr) s).conv_back (i * 2 + 1)
      = (l.foldl (set_fade_entry fl wr) s).conv_back (i * 2) ^^^ diffMask := by
  induction l generalizing s with
  | nil => cases hmem
  | cons a t ih =>
      rw [List.foldl_cons]
      rcases List.mem_cons.mp hmem with heq | hmem2
      · subst heq
        have ht := (List.nodup_cons.mp hnd).1
        rw [(fold_sfe_back_notmem _ _ _ _ _ ht).1, (fold_sfe_back_notmem _ _ _ _ _ ht).2,
          sfe_conv_back_pair _ _ _ _ hc]
      · exact ih _ hmem2 (List.nodup_cons.mp hnd).2

set_option maxRecDepth 4000 in
lemma writeSync_pair (f : Nat → Nat) (i : Nat) (h : ¬isCtrlIndex i) :
    writeSync f (i * 2) = f (i * 2) ∧ writeSync f (i * 2 + 1) = f (i * 2 + 1) := by
  unfold isCtrlIndex BASE_HDMI_CTRL_INX HDMI_CTRL_COUNT at h
  unfold writeSync upd BASE_HDMI_CTRL_INX
  refine ⟨?_, ?_⟩ <;> (split_ifs <;> first | rfl | omega)

lemma rsc_palette (s : GState) : (graphics_restore_sync_colors s).palette = s.palette := rfl

lemma rsc_palette_original (s : GState) :
    (graphics_restore_sync_colors s).palette_original = s.palette_original := rfl

set_option maxRecDepth 10000 in
lemma sfl_palette_original (s : GState) (fl wr : Nat) :
    (graphics_set_fade_level s fl wr).palette_original = s.palette_original := by
  have h : (graphics_set_fade_level s fl wr).palette_original
      = ((List.range 256).foldl (set_fade_entry fl wr)
          { s with fade_level := fl, fade_rows := wr }).palette_original := rfl
  rw [h, fold_sfe_palette_original]

lemma applyFades_palette_original (fs : List (Nat × Nat)) (s : GState) :
    (applyFades s fs).palette_original = s.palette_original := by
  induction fs generalizing s with
  | nil => rfl
  | cons f t ih =>
      show (applyFades (graphics_set_fade_level s f.1 f.2) t).palette_original = _
      rw [ih, sfl_palette_original]

end HDMI

/-! The claim theorems. -/

/-- Claim C1: for every finite sequence of palette writes performed between
two vblank publishes, no entry of the front (hardware-visible) CLUT buffer
changes until the publish executes with the dirty flag set; when it
executes, the front buffer's lookup-table region becomes exactly equal to
the back buffer and the dirty flag is cleared. -/
theorem c1_front_unchanged_until_publish (ws : List (Nat × Nat)) (s : HDMI.GState) :
    (∀ j, (HDMI.applyWrites s ws).conv_front j = s.conv_front j) ∧
    ((HDMI.applyWrites s ws).dirty = true →
      (∀ j, j < 512 →
        (HDMI.vsync_swap_buffers (HDMI.applyWrites s ws)).conv_front j
          = (HDMI.applyWrites s ws).conv_back j) ∧
      (HDMI.vsync_swap_buffers (HDMI.applyWrites s ws)).dirty = false) := by
  refine ⟨fun j => by rw [HDMI.applyWrites_conv_front], fun hd => ?_⟩
  unfold HDMI.vsync_swap_buffers
  rw [if_pos hd]
  exact ⟨fun j hj => by dsimp only; rw [if_pos hj], rfl⟩

/-- Witness for C1 at the single write set_palette(5, 0xFF0000) from the
all-zero state. -/
theorem c1_witness :
    (HDMI.applyWrites HDMI.initState [(5, 16711680)]).conv_front 10
        = HDMI.initState.conv_front 10
    ∧ (HDMI.vsync_swap_buffers (HDMI.applyWrites HDMI.initState [(5, 16711680)])).conv_front 10
        = (HDMI.applyWrites HDMI.initState [(5, 16711680)]).conv_back 10
    ∧ (HDMI.vsync_swap_buffers (HDMI.applyWrites HDMI.initState [(5, 16711680)])).dirty
        = false :=
  ⟨(c1_front_unchanged_until_publish [(5, 16711680)] HDMI.initState).1 10,
    ((c1_front_unchanged_until_publish [(5, 16711680)] HDMI.initState).2 (by decide)).1 10
      (by omega),
    ((c1_front_unchanged_until_publish [(5, 16711680)] HDMI.initState).2 (by decide)).2⟩

set_option maxRecDepth 10000 in
/-- Claim C6: a final graphics_set_fade_level(0, m) after any sequence of
fades makes every non-reserved logical palette entry equal its stored
original unfaded value, and the stored originals are never modified by
fading. -/
theorem c6_fade_round_trip (fades : List (Nat × Nat)) (m : Nat) (s : HDMI.GState)
    (i : Nat) (hi : i < 256) (hr : ¬HDMI.isCtrlIndex i) :
    (HDMI.graphics_set_fade_level (HDMI.applyFades s fades) 0 m).palette i
        = s.palette_original i
    ∧ (∀ j, (HDMI.applyFades s fades).palette_original j = s.palette_original j)
    ∧ (∀ j, (HDMI.graphics_set_fade_level (HDMI.applyFades s fades) 0 m).palette_original j
        = s.palette_original j) := by
  have hA := HDMI.applyFades_palette_original fades s
  refine ⟨?_, fun j => by rw [hA], fun j => by rw [HDMI.sfl_palette_original, hA]⟩
  have h1 : (HDMI.graphics_set_fade_level (HDMI.applyFades s fades) 0 m).palette i
      = ((List.range 256).foldl (HDMI.set_fade_entry 0 m)
          { HDMI.applyFades s fades with fade_level := 0, fade_rows := m }).palette i := rfl
  rw [h1, HDMI.fold_sfe_palette0 _ _ _ _ (List.mem_range.mpr hi) (List.nodup_range 256) hr]
  exact congrFun hA i

/-- Witness for C6: one fade to level 10 then set_fade_level(0, 5) restores
palette entry 7 of the all-zero state. -/
theorem c6_witness :
    (HDMI.graphics_set_fade_level (HDMI.applyFades HDMI.initState [(10, 0)]) 0 5).palette 7
        = HDMI.initState.palette_original 7
    ∧ (HDMI.applyFades HDMI.initState [(10, 0)]).palette_original 7
        = HDMI.initState.palette_original 7 :=
  ⟨(c6_fade_round_trip [(10, 0)] 5 HDMI.initState 7 (by decide) (by decide)).1,
    (c6_fade_round_trip [(10, 0)] 5 HDMI.initState 7 (by decide) (by decide)).2.1 7⟩

/-- Claim C7: set_palette on a reserved index (240-243) leaves the encoded
back buffer and the dirty flag unchanged; set_palette on a non-reserved
index writes that index's two encoded words, leaves all other entries
unchanged, and sets the dirty flag. -/
theorem c7_set_palette_effects (s : HDMI.GState) (ir cr i c : Nat)
    (hir : HDMI.isCtrlIndex ir) (hi : ¬HDMI.isCtrlIndex i) :
    ((∀ j, (HDMI.graphics_set_palette_hdmi s ir cr).conv_back j = s.conv_back j)
      ∧ (HDMI.graphics_set_palette_hdmi s ir cr).dirty = s.dirty)
    ∧ ((HDMI.graphics_set_palette_hdmi s i c).conv_back (i * 2)
          = HDMI.encodeEntry ((HDMI.graphics_set_palette_hdmi s i c).palette i)
      ∧ (HDMI.graphics_set_palette_hdmi s i c).conv_back (i * 2 + 1)
          = (HDMI.graphics_set_palette_hdmi s i c).conv_back (i * 2) ^^^ HDMI.diffMask
      ∧ (∀ j, j ≠ i * 2 → j ≠ i * 2 + 1 →
          (HDMI.graphics_set_palette_hdmi s i c).conv_back j = s.conv_back j)
      ∧ (HDMI.graphics_set_palette_hdmi s i c).dirty = true) := by
  constructor
  · constructor
    · intro j
      unfold HDMI.graphics_set_palette_hdmi
      rw [if_pos hir]
    · unfold HDMI.graphics_set_palette_hdmi
      rw [if_pos hir]
  · unfold HDMI.graphics_set_palette_hdmi
    rw [if_neg hi]
    dsimp only
    unfold Murmprince.upd
    refine ⟨?_, ?_, fun j h1 h2 => ?_, rfl⟩ <;> split_ifs <;> first | rfl | omega

/-- Witness for C7 at the spec scenario set_palette(5, 0xFF0000) then
set_palette(241, 0x00FF00). -/
theorem c7_witness :
    (HDMI.graphics_set_palette_hdmi HDMI.initState 5 16711680).dirty = true
    ∧ (HDMI.graphics_set_palette_hdmi HDMI.initState 241 65280).dirty
        = HDMI.initState.dirty
    ∧ (HDMI.graphics_set_palette_hdmi HDMI.initState 241 65280).conv_back 482
        = HDMI.initState.conv_back 482 :=
  ⟨(c7_set_palette_effects HDMI.initState 241 65280 5 16711680 (by decide)
      (by decide)).2.2.2.2,
    (c7_set_palette_effects HDMI.initState 241 65280 5 16711680 (by decide)
      (by decide)).1.2,
    (c7_set_palette_effects HDMI.initState 241 65280 5 16711680 (by decide)
      (by decide)).1.1 482⟩

/-- Claim C8: the ISR remap guard never produces an index in the reserved
range 240-243 for any input 0-255: reserved inputs map to 255 and all
other inputs pass through unchanged. -/
theorem c8_remap_guard_safe (c : Nat) (hc : c < 256) :
    ¬(240 ≤ HDMI.remap_guard c ∧ HDMI.remap_guard c < 244)
    ∧ ((240 ≤ c ∧ c < 244) → HDMI.remap_guard c = 255)
    ∧ (¬(240 ≤ c ∧ c < 244) → HDMI.remap_guard c = c) := by
  unfold HDMI.remap_guard HDMI.BASE_HDMI_CTRL_INX HDMI.HDMI_CTRL_COUNT
  split_ifs with h <;> omega

/-- Witness for C8 at the reserved input 242. -/
theorem c8_witness :
    HDMI.remap_guard 242 = 255
    ∧ ¬(240 ≤ HDMI.remap_guard 242 ∧ HDMI.remap_guard 242 < 244) :=
  ⟨(c8_remap_guard_safe 242 (by decide)).2.1 (by decide),
    (c8_remap_guard_safe 242 (by decide)).1⟩

set_option maxRecDepth 10000 in
/-- Claim C10: for every non-reserved palette index programmed through
graphics_set_palette_hdmi or graphics_set_fade_level, the second encoded
CLUT word of the pair is the first word XOR 0x0003ffffffffffff. -/
theorem c10_pair_complement (s : HDMI.GState) (i c fl wr : Nat)
    (hi : i < 256) (hr : ¬HDMI.isCtrlIndex i) :
    (HDMI.graphics_set_palette_hdmi s i c).conv_back (i * 2 + 1)
      = (HDMI.graphics_set_palette_hdmi s i c).conv_back (i * 2) ^^^ HDMI.diffMask
    ∧ (HDMI.graphics_set_fade_level s fl wr).conv_back (i * 2 + 1)
      = (HDMI.graphics_set_fade_level s fl wr).conv_back (i * 2) ^^^ HDMI.diffMask := by
  constructor
  · unfold HDMI.graphics_set_palette_hdmi
    rw [if_neg hr]
    dsimp only
    unfold Murmprince.upd
    split_ifs <;> first | rfl | omega
  · have h2 : ∀ k, (HDMI.graphics_set_fade_level s fl wr).conv_back k
        = HDMI.writeSync (((List.range 256).foldl (HDMI.set_fade_entry fl wr)
            { s with fade_level := fl, fade_rows := wr }).conv_back) k := fun k => rfl
    rw [h2, h2, (HDMI.writeSync_pair _ i hr).2, (HDMI.writeSync_pair _ i hr).1]
    exact HDMI.fold_sfe_back_pair _ _ _ _ _ (List.mem_range.mpr hi) (List.nodup_range 256) hr

/-! Helper lemmas about the two stream read implementations. -/

set_option maxHeartbeats 1000000 in
lemma pump_read_le (s : Pump.Stream) (N : Nat) (hs : Pump.wf s) :
    (Pump.sd_async_stream_read s N).1 ≤ min (N : Int) (Pump.totalBuffered s) := by
  obtain ⟨h1, h2⟩ := hs
  rcases show s.active_buffer = 0 ∨ s.active_buffer = 1 ∨
      (s.active_buffer ≠ 0 ∧ s.active_buffer ≠ 1) from by omega with ha | ha | ⟨ha, ha2⟩
  · simp only [Pump.sd_async_stream_read, Pump.sd_async_stream_available, Pump.finishRead,
      Pump.swapBuffers, Pump.addConsumed, Pump.totalBuffered, ha]
    norm_num
    split_ifs <;> (try dsimp only) <;> omega
  · simp only [Pump.sd_async_stream_read, Pump.sd_async_stream_available, Pump.finishRead,
      Pump.swapBuffers, Pump.addConsumed, Pump.totalBuffered, ha]
    norm_num
    split_ifs <;> (try dsimp only) <;> omega
  · have hx1 : ¬((1 : Int) - s.active_buffer = 0) := by omega
    simp only [Pump.sd_async_stream_read, Pump.sd_async_stream_available, Pump.finishRead,
      Pump.swapBuffers, Pump.addConsumed, Pump.totalBuffered, if_neg ha, if_neg hx1]
    split_ifs <;> (try dsimp only) <;> omega

set_option maxHeartbeats 1000000 in
lemma worker_read_le (t : Worker.Stream) (d : Bool) (M : Nat) (ht : Worker.wf t) :
    (Worker.sd_async_stream_read d t M).1 ≤ min (M : Int) (Worker.totalBuffered t) := by
  obtain ⟨h1, h2⟩ := ht
  rcases show t.active_buffer = 0 ∨ t.active_buffer = 1 ∨
      (t.active_buffer ≠ 0 ∧ t.active_buffer ≠ 1) from by omega with ha | ha | ⟨ha, ha2⟩
  · simp only [Worker.sd_async_stream_read, Worker.sd_async_stream_available, Worker.finishRead,
      Worker.swapBuffers, Worker.addConsumed, Worker.totalBuffered, ha]
    norm_num
    split_ifs <;> (try dsimp only) <;> omega
  · simp only [Worker.sd_async_stream_read, Worker.sd_async_stream_available, Worker.finishRead,
      Worker.swapBuffers, Worker.addConsumed, Worker.totalBuffered, ha]
    norm_num
    split_ifs <;> (try dsimp only) <;> omega
  · have hx1 : ¬((1 : Int) - t.active_buffer = 0) := by omega
    simp only [Worker.sd_async_stream_read, Worker.sd_async_stream_available, Worker.finishRead,
      Worker.swapBuffers, Worker.addConsumed, Worker.totalBuffered, if_neg ha, if_neg hx1]
    split_ifs <;> (try dsimp only) <;> omega

set_option maxHeartbeats 1000000 in
lemma pump_read_le_avail (s : Pump.Stream) (N : Nat)
    (ha0 : 0 < Pump.sd_async_stream_available s) :
    (Pump.sd_async_stream_read s N).1 ≤ min (N : Int) (Pump.sd_async_stream_available s) := by
  rcases show s.active_buffer = 0 ∨ s.active_buffer ≠ 0 from by omega with ha | ha
  · simp only [Pump.sd_async_stream_read, Pump.sd_async_stream_available, Pump.finishRead,
      Pump.swapBuffers, Pump.addConsumed, ha] at ha0 ⊢
    norm_num at ha0 ⊢
    split_ifs <;> (try dsimp only) <;> omega
  · simp only [Pump.sd_async_stream_read, Pump.sd_async_stream_available, Pump.finishRead,
      Pump.swapBuffers, Pump.addConsumed, if_neg ha] at ha0 ⊢
    split_ifs <;> (try dsimp only) <;> omega

set_option maxHeartbeats 1000000 in
lemma worker_read_le_avail (t : Worker.Stream) (d : Bool) (M : Nat)
    (ha0 : 0 < Worker.sd_async_stream_available t) :
    (Worker.sd_async_stream_read d t M).1
      ≤ min (M : Int) (Worker.sd_async_stream_available t) := by
  rcases show t.active_buffer = 0 ∨ t.active_buffer ≠ 0 from by omega with ha | ha
  · simp only [Worker.sd_async_stream_read, Worker.sd_async_stream_available, Worker.finishRead,
      Worker.swapBuffers, Worker.addConsumed, ha] at ha0 ⊢
    norm_num at ha0 ⊢
    split_ifs <;> (try dsimp only) <;> omega
  · simp only [Worker.sd_async_stream_read, Worker.sd_async_stream_available, Worker.finishRead,
      Worker.swapBuffers, Worker.addConsumed, if_neg ha] at ha0 ⊢
    split_ifs <;> (try dsimp only) <;> omega

set_option maxHeartbeats 1000000 in
lemma pump_read_total_dec (s : Pump.Stream) (N : Nat) (hs : Pump.wf s) :
    0 < (Pump.sd_async_stream_read s N).1 →
      Pump.totalBuffered (Pump.sd_async_stream_read s N).2
        = Pump.totalBuffered s - (Pump.sd_async_stream_read s N).1 := by
  obtain ⟨h1, h2⟩ := hs
  rcases show s.active_buffer = 0 ∨ s.active_buffer = 1 ∨
      (s.active_buffer ≠ 0 ∧ s.active_buffer ≠ 1) from by omega with ha | ha | ⟨ha, ha2⟩
  · simp only [Pump.sd_async_stream_read, Pump.sd_async_stream_available, Pump.finishRead,
      Pump.swapBuffers, Pump.addConsumed, Pump.totalBuffered, ha]
    norm_num
    split_ifs <;> (try dsimp only) <;> omega
  · simp only [Pump.sd_async_stream_read, Pump.sd_async_stream_available, Pump.finishRead,
      Pump.swapBuffers, Pump.addConsumed, Pump.totalBuffered, ha]
    norm_num
    split_ifs <;> (try dsimp only) <;> omega
  · have hx1 : ¬((1 : Int) - s.active_buffer = 0) := by omega
    simp only [Pump.sd_async_stream_read, Pump.sd_async_stream_available, Pump.finishRead,
      Pump.swapBuffers, Pump.addConsumed, Pump.totalBuffered, if_neg ha, if_neg hx1]
    split_ifs <;> (try dsimp only) <;> omega

set_option maxHeartbeats 1000000 in
lemma worker_read_total_dec (t : Worker.Stream) (d : Bool) (M : Nat) (ht : Worker.wf t) :
    0 < (Worker.sd_async_stream_read d t M).1 →
      Worker.totalBuffered (Worker.sd_async_stream_read d t M).2
        = Worker.totalBuffered t - (Worker.sd_async_stream_read d t M).1 := by
  obtain ⟨h1, h2⟩ := ht
  rcases show t.active_buffer = 0 ∨ t.active_buffer = 1 ∨
      (t.active_buffer ≠ 0 ∧ t.active_buffer ≠ 1) from by omega with ha | ha | ⟨ha, ha2⟩
  · simp only [Worker.sd_async_stream_read, Worker.sd_async_stream_available, Worker.finishRead,
      Worker.swapBuffers, Worker.addConsumed, Worker.totalBuffered, ha]
    norm_num
    split_ifs <;> (try dsimp only) <;> omega
  · simp only [Worker.sd_async_stream_read, Worker.sd_async_stream_available, Worker.finishRead,
      Worker.swapBuffers, Worker.addConsumed, Worker.totalBuffered, ha]
    norm_num
    split_ifs <;> (try dsimp only) <;> omega
  · have hx1 : ¬((1 : Int) - t.active_buffer = 0) := by omega
    simp only [Worker.sd_async_stream_read, Worker.sd_async_stream_available, Worker.finishRead,
      Worker.swapBuffers, Worker.addConsumed, Worker.totalBuffered, if_neg ha, if_neg hx1]
    split_ifs <;> (try dsimp only) <;> omega

lemma p_avail_addConsumed (s : Pump.Stream) (n : Int) :
    Pump.sd_async_stream_available (Pump.addConsumed s n)
      = Pump.sd_async_stream_available s - n := by
  by_cases h : s.active_buffer = 0 <;>
    simp [Pump.sd_async_stream_available, Pump.addConsumed, h] <;> ring

lemma w_avail_addConsumed (s : Worker.Stream) (n : Int) :
    Worker.sd_async_stream_available (Worker.addConsumed s n)
      = Worker.sd_async_stream_available s - n := by
  by_cases h : s.active_buffer = 0 <;>
    simp [Worker.sd_async_stream_available, Worker.addConsumed, h] <;> ring

lemma pump_read_avail_dec (s : Pump.Stream) (N : Nat)
    (ha0 : 0 < Pump.sd_async_stream_available s)
    (hr : 0 < (Pump.sd_async_stream_read s N).1) :
    Pump.sd_async_stream_available (Pump.sd_async_stream_read s N).2
      = Pump.sd_async_stream_available s - (Pump.sd_async_stream_read s N).1 := by
  by_cases he : s.state = Pump.St.error
  · simp [Pump.sd_async_stream_read, he] at hr
  by_cases hc : s.state = Pump.St.closed
  · simp [Pump.sd_async_stream_read, he, hc] at hr
  have hread : Pump.sd_async_stream_read s N
      = Pump.finishRead s (Pump.sd_async_stream_available s) N := by
    unfold Pump.sd_async_stream_read
    rw [if_neg he, if_neg hc, if_neg (by omega : ¬ Pump.sd_async_stream_available s ≤ 0)]
  rw [hread]
  unfold Pump.finishRead
  rw [if_neg (by omega : ¬ Pump.sd_async_stream_available s ≤ 0)]
  dsimp only
  rw [p_avail_addConsumed]

lemma worker_read_avail_dec (t : Worker.Stream) (d : Bool) (M : Nat)
    (ha0 : 0 < Worker.sd_async_stream_available t)
    (hr : 0 < (Worker.sd_async_stream_read d t M).1) :
    Worker.sd_async_stream_available (Worker.sd_async_stream_read d t M).2
      = Worker.sd_async_stream_available t - (Worker.sd_async_stream_read d t M).1 := by
  by_cases hd : ¬d ∨ M = 0
  · have h0 : Worker.sd_async_stream_read d t M = (0, t) := by
      unfold Worker.sd_async_stream_read; rw [if_pos hd]
    rw [h0] at hr
    exact absurd hr (by norm_num)
  by_cases he : t.state = Worker.St.error
  · have h0 : Worker.sd_async_stream_read d t M = (-1, t) := by
      unfold Worker.sd_async_stream_read; rw [if_neg hd, if_pos he]
    rw [h0] at hr
    exact absurd hr (by norm_num)
  have hread : Worker.sd_async_stream_read d t M
      = Worker.finishRead t (Worker.sd_async_stream_available t) M := by
    unfold Worker.sd_async_stream_read
    rw [if_neg hd, if_neg he, if_neg (by omega : ¬ Worker.sd_async_stream_available t ≤ 0)]
  rw [hread]
  unfold Worker.finishRead
  rw [if_neg (by omega : ¬ Worker.sd_async_stream_available t ≤ 0)]
  dsimp only
  rw [w_avail_addConsumed]

set_option maxHeartbeats 1000000 in
lemma pump_read_eof (s : Pump.Stream) (N : Nat)
    (hst : s.state = Pump.St.eof)
    (hda : s.a_valid - s.a_consumed ≤ 0) (hdb : s.b_valid - s.b_consumed ≤ 0) :
    (Pump.sd_async_stream_read s N).1 = -1 := by
  rcases show s.active_buffer = 0 ∨ s.active_buffer = 1 ∨
      (s.active_buffer ≠ 0 ∧ s.active_buffer ≠ 1) from by omega with ha | ha | ⟨ha, ha2⟩
  · simp only [Pump.sd_async_stream_read, Pump.sd_async_stream_available, Pump.finishRead,
      Pump.swapBuffers, Pump.addConsumed, ha, hst]
    norm_num
    split_ifs <;> (try dsimp only) <;> omega
  · simp only [Pump.sd_async_stream_read, Pump.sd_async_stream_available, Pump.finishRead,
      Pump.swapBuffers, Pump.addConsumed, ha, hst]
    norm_num
    split_ifs <;> (try dsimp only) <;> omega
  · have hx1 : ¬((1 : Int) - s.active_buffer = 0) := by omega
    simp only [Pump.sd_async_stream_read, Pump.sd_async_stream_available, Pump.finishRead,
      Pump.swapBuffers, Pump.addConsumed, if_neg ha, if_neg hx1, hst]
    norm_num
    split_ifs <;> (try dsimp only) <;> omega

set_option maxHeartbeats 1000000 in
lemma worker_read_eof (t : Worker.Stream) (M : Nat)
    (hst : t.state = Worker.St.eof) (hM : M ≠ 0)
    (hda : t.a_valid - t.a_consumed ≤ 0) (hdb : t.b_valid - t.b_consumed ≤ 0) :
    (Worker.sd_async_stream_read true t M).1 = -1 := by
  rcases show t.active_buffer = 0 ∨ t.active_buffer = 1 ∨
      (t.active_buffer ≠ 0 ∧ t.active_buffer ≠ 1) from by omega with ha | ha | ⟨ha, ha2⟩
  · simp only [Worker.sd_async_stream_read, Worker.sd_async_stream_available, Worker.finishRead,
      Worker.swapBuffers, Worker.addConsumed, ha, hst, not_true, false_or, hM]
    norm_num
    split_ifs <;> (try dsimp only) <;> omega
  · simp only [Worker.sd_async_stream_read, Worker.sd_async_stream_available, Worker.finishRead,
      Worker.swapBuffers, Worker.addConsumed, ha, hst, not_true, false_or, hM]
    norm_num
    split_ifs <;> (try dsimp only) <;> omega
  · have hx1 : ¬((1 : Int) - t.active_buffer = 0) := by omega
    simp only [Worker.sd_async_stream_read, Worker.sd_async_stream_available, Worker.finishRead,
      Worker.swapBuffers, Worker.addConsumed, if_neg ha, if_neg hx1, hst, not_true,
      false_or, hM]
    norm_num
    split_ifs <;> (try dsimp only) <;> omega

lemma worker_read_zero (t : Worker.Stream) (d : Bool) :
    Worker.sd_async_stream_read d t 0 = (0, t) := by
  simp [Worker.sd_async_stream_read]

lemma pump_read_error (s : Pump.Stream) (N : Nat) (he : s.state = Pump.St.error) :
    Pump.sd_async_stream_read s N = (-1, s) := by
  simp [Pump.sd_async_stream_read, he]

lemma worker_read_error (t : Worker.Stream) (M : Nat) (he : t.state = Worker.St.error)
    (hM : M ≠ 0) :
    Worker.sd_async_stream_read true t M = (-1, t) := by
  simp [Worker.sd_async_stream_read, he, hM]

lemma worker_seek_error (t : Worker.Stream) (dev : Worker.Dev) (pos : Nat)
    (he : t.state = Worker.St.error) :
    Worker.sd_async_stream_seek dev t pos = (-1, t) := by
  simp [Worker.sd_async_stream_seek, he]

lemma pump_seek_state (s : Pump.Stream) (pos : Nat) (hfile : s.fileOpen = true) :
    (Pump.sd_async_stream_seek s pos true).2.state
      = (if pos < s.file_size then Pump.St.fillingA else Pump.St.eof) := by
  simp [Pump.sd_async_stream_seek, hfile]

lemma process_oneshot_id (fs : Oneshot.FS) (r : Oneshot.OneshotReq) :
    (Oneshot.process_oneshot_work fs r).id = r.id := by
  rcases h : fs.openSize r.path with _ | n
  · simp [Oneshot.process_oneshot_work, h]
  · rcases h2 : fs.readResult r.path (if r.max_bytes < n then r.max_bytes else n) with _ | m <;>
      simp [Oneshot.process_oneshot_work, h, h2]

lemma pass_elem_id (fs : Oneshot.FS) (x : Oneshot.OneshotReq) :
    (if x.state = Oneshot.ReqState.pending
      then Oneshot.process_oneshot_work fs { x with state := Oneshot.ReqState.inProgress }
      else x).id = x.id := by
  split_ifs with h
  · rw [process_oneshot_id]
  · rfl

/-- Claim C2 (amended form): in both variants a read never returns more than
min(N, total unconsumed bytes buffered across both internal buffers); and
whenever the active buffer has unconsumed bytes (so no buffer swap occurs)
it never returns more than min(N, available). -/
theorem c2_read_bounded (s : Pump.Stream) (t : Worker.Stream) (d : Bool) (N M : Nat)
    (hs : Pump.wf s) (ht : Worker.wf t) :
    ((Pump.sd_async_stream_read s N).1 ≤ min (N : Int) (Pump.totalBuffered s)
      ∧ (0 < Pump.sd_async_stream_available s →
          (Pump.sd_async_stream_read s N).1
            ≤ min (N : Int) (Pump.sd_async_stream_available s)))
    ∧ ((Worker.sd_async_stream_read d t M).1 ≤ min (M : Int) (Worker.totalBuffered t)
      ∧ (0 < Worker.sd_async_stream_available t →
          (Worker.sd_async_stream_read d t M).1
            ≤ min (M : Int) (Worker.sd_async_stream_available t))) :=
  ⟨⟨pump_read_le s N hs, fun h => pump_read_le_avail s N h⟩,
    ⟨worker_read_le t d M ht, fun h => worker_read_le_avail t d M h⟩⟩

/-- Counterexample to C2 as stated: with the active buffer drained and the
other buffer holding 100 bytes, available reports 0 but the read swaps
buffers and returns 10 bytes, exceeding min(10, available). -/
theorem c2_counterexample :
    Pump.sd_async_stream_available cexStreamA = 0
    ∧ (Pump.sd_async_stream_read cexStreamA 10).1 = 10
    ∧ ¬((Pump.sd_async_stream_read cexStreamA 10).1
          ≤ min ((10 : Nat) : Int) (Pump.sd_async_stream_available cexStreamA)) := by
  decide

/-- Witness for the amended C2 at a healthy mid-stream state. -/
theorem c2_witness :
    (Pump.sd_async_stream_read witStreamP 20).1
        ≤ min ((20 : Nat) : Int) (Pump.totalBuffered witStreamP)
    ∧ (Pump.sd_async_stream_read witStreamP 20).1
        ≤ min ((20 : Nat) : Int) (Pump.sd_async_stream_available witStreamP)
    ∧ (Worker.sd_async_stream_read true witStreamW 20).1
        ≤ min ((20 : Nat) : Int) (Worker.totalBuffered witStreamW)
    ∧ (Worker.sd_async_stream_read true witStreamW 20).1
        ≤ min ((20 : Nat) : Int) (Worker.sd_async_stream_available witStreamW) :=
  ⟨(c2_read_bounded witStreamP witStreamW true 20 20 (by decide) (by decide)).1.1,
    (c2_read_bounded witStreamP witStreamW true 20 20 (by decide) (by decide)).1.2 (by decide),
    (c2_read_bounded witStreamP witStreamW true 20 20 (by decide) (by decide)).2.1,
    (c2_read_bounded witStreamP witStreamW true 20 20 (by decide) (by decide)).2.2 (by decide)⟩

/-- Claim C3 (amended form): a successful read (positive return r) decreases
the total bytes buffered across both internal buffers by exactly r, in both
variants; when the read is served from the active buffer without a swap
(available positive before the call), available itself decreases by exactly
r. -/
theorem c3_read_decreases (s : Pump.Stream) (t : Worker.Stream) (d : Bool) (N M : Nat)
    (hs : Pump.wf s) (ht : Worker.wf t) :
    (0 < (Pump.sd_async_stream_read s N).1 →
        Pump.totalBuffered (Pump.sd_async_stream_read s N).2
          = Pump.totalBuffered s - (Pump.sd_async_stream_read s N).1
      ∧ (0 < Pump.sd_async_stream_available s →
          Pump.sd_async_stream_available (Pump.sd_async_stream_read s N).2
            = Pump.sd_async_stream_available s - (Pump.sd_async_stream_read s N).1))
    ∧ (0 < (Worker.sd_async_stream_read d t M).1 →
        Worker.totalBuffered (Worker.sd_async_stream_read d t M).2
          = Worker.totalBuffered t - (Worker.sd_async_stream_read d t M).1
      ∧ (0 < Worker.sd_async_stream_available t →
          Worker.sd_async_stream_available (Worker.sd_async_stream_read d t M).2
            = Worker.sd_async_stream_available t - (Worker.sd_async_stream_read d t M).1)) :=
  ⟨fun hr => ⟨pump_read_total_dec s N hs hr, fun ha => pump_read_avail_dec s N ha hr⟩,
    fun hr => ⟨worker_read_total_dec t d M ht hr, fun ha => worker_read_avail_dec t d M ha hr⟩⟩

/-- Counterexample to C3 as stated: a successful 10-byte read from the
swapped-in buffer leaves available at 90, not at available-before minus 10
(which would be -10). -/
theorem c3_counterexample :
    (Pump.sd_async_stream_read cexStreamB 10).1 = 10
    ∧ Pump.sd_async_stream_available cexStreamB = 0
    ∧ Pump.sd_async_stream_available (Pump.sd_async_stream_read cexStreamB 10).2 = 90
    ∧ Pump.sd_async_stream_available (Pump.sd_async_stream_read cexStreamB 10).2
        ≠ Pump.sd_async_stream_available cexStreamB
            - (Pump.sd_async_stream_read cexStreamB 10).1 := by
  decide

/-- Witness for the amended C3 at a healthy mid-stream state. -/
theorem c3_witness :
    Pump.totalBuffered (Pump.sd_async_stream_read witStreamP 20).2
        = Pump.totalBuffered witStreamP - (Pump.sd_async_stream_read witStreamP 20).1
    ∧ Pump.sd_async_stream_available (Pump.sd_async_stream_read witStreamP 20).2
        = Pump.sd_async_stream_available witStreamP
            - (Pump.sd_async_stream_read witStreamP 20).1
    ∧ Worker.totalBuffered (Worker.sd_async_stream_read true witStreamW 20).2
        = Worker.totalBuffered witStreamW - (Worker.sd_async_stream_read true witStreamW 20).1
    ∧ Worker.sd_async_stream_available (Worker.sd_async_stream_read true witStreamW 20).2
        = Worker.sd_async_stream_available witStreamW
            - (Worker.sd_async_stream_read true witStreamW 20).1 :=
  ⟨((c3_read_decreases witStreamP witStreamW true 20 20 (by decide) (by decide)).1
      (by decide)).1,
    ((c3_read_decreases witStreamP witStreamW true 20 20 (by decide) (by decide)).1
      (by decide)).2 (by decide),
    ((c3_read_decreases witStreamP witStreamW true 20 20 (by decide) (by decide)).2
      (by decide)).1,
    ((c3_read_decreases witStreamP witStreamW true 20 20 (by decide) (by decide)).2
      (by decide)).2 (by decide)⟩

/-- Claim C4 (amended form): for a stream in EOF with both buffers drained,
read returns -1 in the pump variant for every byte count including 0, and
in the worker variant for every nonzero byte count with a non-null dest;
the worker variant returns 0 (not -1) when the requested count is 0. -/
theorem c4_eof_read_negative (s : Pump.Stream) (t : Worker.Stream) (N M : Nat) (d : Bool)
    (hs1 : s.state = Pump.St.eof) (hs2 : s.a_valid - s.a_consumed ≤ 0)
    (hs3 : s.b_valid - s.b_consumed ≤ 0)
    (ht1 : t.state = Worker.St.eof) (ht2 : t.a_valid - t.a_consumed ≤ 0)
    (ht3 : t.b_valid - t.b_consumed ≤ 0) (hM : M ≠ 0) :
    (Pump.sd_async_stream_read s N).1 = -1
    ∧ (Worker.sd_async_stream_read true t M).1 = -1
    ∧ (Worker.sd_async_stream_read d t 0).1 = 0 :=
  ⟨pump_read_eof s N hs1 hs2 hs3, worker_read_eof t M ht1 hM ht2 ht3,
    by rw [worker_read_zero]⟩

/-- Counterexample to C4 as stated: the worker variant returns 0, not the
negative sentinel, for a zero-byte read of a drained EOF stream. -/
theorem c4_counterexample :
    Worker.sd_async_stream_available cexStreamEof = 0
    ∧ cexStreamEof.state = Worker.St.eof
    ∧ (Worker.sd_async_stream_read true cexStreamEof 0).1 = 0
    ∧ (Worker.sd_async_stream_read true cexStreamEof 0).1 ≠ -1 := by
  decide

/-- Witness for the amended C4 at concrete drained EOF streams. -/
theorem c4_witness :
    (Pump.sd_async_stream_read cexStreamEofP 0).1 = -1
    ∧ (Worker.sd_async_stream_read true cexStreamEof 7).1 = -1
    ∧ (Worker.sd_async_stream_read false cexStreamEof 0).1 = 0 :=
  c4_eof_read_negative cexStreamEofP cexStreamEof 0 7 false (by decide) (by decide)
    (by decide) (by decide) (by decide) (by decide) (by decide)

/-- Claim C5 (amended form): read leaves an ERROR stream in ERROR in both
variants (returning -1, except the worker variant returns 0 for a zero
count or null dest), and worker-variant seek rejects an ERROR stream with
-1; but the pump-variant seek does not check for ERROR: on an ERROR stream
with an open file and a successful device lseek it transitions the stream
back to FILLING_A (or EOF), so ERROR is not absorbing under pump seek. -/
theorem c5_error_state (s : Pump.Stream) (t : Worker.Stream) (N M pos wpos : Nat)
    (d : Bool) (dev : Worker.Dev)
    (hs : s.state = Pump.St.error) (ht : t.state = Worker.St.error)
    (hfile : s.fileOpen = true) (hM : M ≠ 0) :
    Pump.sd_async_stream_read s N = (-1, s)
    ∧ Worker.sd_async_stream_read true t M = (-1, t)
    ∧ Worker.sd_async_stream_read d t 0 = (0, t)
    ∧ Worker.sd_async_stream_seek dev t wpos = (-1, t)
    ∧ (Pump.sd_async_stream_seek s pos true).2.state
        = (if pos < s.file_size then Pump.St.fillingA else Pump.St.eof) :=
  ⟨pump_read_error s N hs, worker_read_error t M ht hM, worker_read_zero t d,
    worker_seek_error t dev wpos ht, pump_seek_state s pos hfile⟩

/-- Counterexample to C5 as stated: a successful pump-variant seek on an
ERROR stream with an open file moves the state to FILLING_A. -/
theorem c5_counterexample :
    cexStreamErr.state = Pump.St.error
    ∧ (Pump.sd_async_stream_seek cexStreamErr 0 true).2.state = Pump.St.fillingA
    ∧ (Pump.sd_async_stream_seek cexStreamErr 0 true).2.state ≠ Pump.St.error := by
  decide

/-- Witness for the amended C5 at concrete ERROR streams. -/
theorem c5_witness :
    Pump.sd_async_stream_read cexStreamErr 3 = (-1, cexStreamErr)
    ∧ Worker.sd_async_stream_read true cexStreamErrW 4 = (-1, cexStreamErrW)
    ∧ Worker.sd_async_stream_read false cexStreamErrW 0 = (0, cexStreamErrW)
    ∧ Worker.sd_async_stream_seek cexDev cexStreamErrW 6 = (-1, cexStreamErrW)
    ∧ (Pump.sd_async_stream_seek cexStreamErr 5 true).2.state
        = (if 5 < cexStreamErr.file_size then Pump.St.fillingA else Pump.St.eof) :=
  c5_error_state cexStreamErr cexStreamErrW 3 4 5 6 false cexDev (by decide) (by decide)
    (by decide) (by decide)

/-- Claim C9: every one-shot request against a path that cannot be opened
completes in the ERROR state with result -1, for every requested byte count
including 0, independently of the order and number (up to the 8-slot
capacity) of the other pending requests. -/
theorem c9_oneshot_bad_path (fs : Oneshot.FS) (rs1 rs2 : List Oneshot.OneshotReq)
    (r : Oneshot.OneshotReq)
    (hopen : fs.openSize r.path = none) (hpend : r.state = Oneshot.ReqState.pending)
    (hid : r.id ≠ Oneshot.SD_ASYNC_INVALID_REQ)
    (hdist : ∀ x ∈ rs1, x.id ≠ r.id)
    (_hcap : (rs1 ++ r :: rs2).length ≤ 8) :
    Oneshot.sd_async_get_result (Oneshot.worker_pass_oneshots fs (rs1 ++ r :: rs2)) r.id = -1
    ∧ (Oneshot.worker_pass_oneshots fs (rs1 ++ r :: rs2)).find? (fun x => x.id = r.id)
        = some { r with state := Oneshot.ReqState.error, result := -1 } := by
  have hfind : (Oneshot.worker_pass_oneshots fs (rs1 ++ r :: rs2)).find? (fun x => x.id = r.id)
      = some { r with state := Oneshot.ReqState.error, result := -1 } := by
    clear _hcap
    unfold Oneshot.worker_pass_oneshots
    induction rs1 with
    | nil =>
        rw [List.nil_append, List.map_cons, if_pos hpend,
          List.find?_cons_of_pos _ (by simp [process_oneshot_id])]
        have hproc : Oneshot.process_oneshot_work fs
            { r with state := Oneshot.ReqState.inProgress }
            = { r with state := Oneshot.ReqState.error, result := -1 } := by
          simp [Oneshot.process_oneshot_work, hopen]
        rw [hproc]
    | cons x t ih =>
        rw [List.cons_append, List.map_cons,
          List.find?_cons_of_neg _ (by simp [pass_elem_id, hdist x (List.mem_cons_self x t)])]
        exact ih (fun y hy => hdist y (List.mem_cons_of_mem x hy))
  refine ⟨?_, hfind⟩
  unfold Oneshot.sd_async_get_result
  rw [if_neg hid, hfind]

/-- Witness for C9 at the spec scenario: three pending requests with byte
counts (100, 0, 50) against a path that cannot be opened. -/
theorem c9_witness :
    Oneshot.sd_async_get_result (Oneshot.worker_pass_oneshots cexFS [reqA, reqB, reqC]) 2 = -1
    ∧ (Oneshot.worker_pass_oneshots cexFS [reqA, reqB, reqC]).find? (fun x => x.id = 2)
        = some { reqB with state := Oneshot.ReqState.error, result := -1 } :=
  c9_oneshot_bad_path cexFS [reqA] [reqC] reqB rfl rfl (by decide) (by decide) (by decide)

set_option maxRecDepth 10000 in
/-- Witness for C10 at index 5 with color 0xFF0000 and fade (10, 0). -/
theorem c10_witness :
    (HDMI.graphics_set_palette_hdmi HDMI.initState 5 16711680).conv_back 11
      = (HDMI.graphics_set_palette_hdmi HDMI.initState 5 16711680).conv_back 10
          ^^^ HDMI.diffMask
    ∧ (HDMI.graphics_set_fade_level HDMI.initState 10 0).conv_back 11
      = (HDMI.graphics_set_fade_level HDMI.initState 10 0).conv_back 10
          ^^^ HDMI.diffMask :=
  c10_pair_complement HDMI.initState 5 16711680 10 0 (by decide) (by decide)

end Murmprince
